import Mathlib

/-!
Verification of the KonohaDataPlatform Airflow DAG layer.

This file gives a shallow embedding, in Lean 4, of the pure computational
core of the repository's Python sources:

* `src/dag/operators/dbt_spark_operator.py`
  (`DbtSparkConfig`, `DbtSparkOperator._build_dbt_command`,
   `DbtSparkOperator._create_profiles_yaml`,
   `DbtSparkOperator._prepare_environment`, pod naming in
   `DbtSparkOperator.execute`);
* `src/dag/config/pipeline_config.py`
  (`EnvironmentType`, `PipelineConfig`,
   `PipelineConfig.get_schedule_interval`,
   `PipelineConfig.from_environment`);
* `src/dag/dbt_analytics_pipeline.py` (the DAG registration values).

Python built-ins used by that code (`str(int)`, `str.replace`, `str.lower`,
`str.join`, `dict` literal/`dict.update` semantics, truthiness) are modelled
by the `py*`/`dict*` helpers below.
-/

/-! Section: Python built-in helpers -/

/-- One step of decimal digit extraction, with explicit fuel.  Implemented via
`Nat.rec` directly so that concrete inputs reduce in linear time in the number
of digits (the fuel argument is peeled lazily).  Models the digit loop behind
Python's `str(n)` for a natural number `n`. -/
def natReprGo : Nat → Nat → List Char :=
  fun fuel => Nat.rec (motive := fun _ => Nat → List Char)
    (fun _ => [])
    (fun _ ih n => if n < 10 then [Nat.digitChar n] else ih (n / 10) ++ [Nat.digitChar (n % 10)])
    fuel

theorem natReprGo_zero (n : Nat) : natReprGo 0 n = [] := rfl

theorem natReprGo_succ (fuel n : Nat) :
    natReprGo (fuel + 1) n =
      if n < 10 then [Nat.digitChar n]
      else natReprGo fuel (n / 10) ++ [Nat.digitChar (n % 10)] := rfl

/-- Decimal digit list of a natural number; `n + 1` fuel always suffices. -/
def natReprL (n : Nat) : List Char := natReprGo (n + 1) n

/-- Model of Python's `str(i)` on an (arbitrary-precision) integer. -/
def pyStrInt (i : Int) : String :=
  if i < 0 then ⟨'-' :: natReprL i.natAbs⟩ else ⟨natReprL i.natAbs⟩

/-- Test that the pattern list is an initial segment (pattern first). -/
def listStartsWith : List Char → List Char → Bool
  | [], _ => true
  | _ :: _, [] => false
  | p :: ps, c :: cs => p == c && listStartsWith ps cs

/-- Fuel-driven worker for Python's `str.replace`: scans left to right and
replaces each non-overlapping occurrence of `old` by `new`.  One unit of fuel
is spent per consumed position, so `s.length` fuel always suffices. -/
def pyReplaceAux (old new : List Char) : Nat → List Char → List Char
  | _, [] => []
  | 0, s => s
  | fuel + 1, c :: cs =>
    if old ≠ [] ∧ listStartsWith old (c :: cs) then
      new ++ pyReplaceAux old new fuel ((c :: cs).drop old.length)
    else
      c :: pyReplaceAux old new fuel cs

/-- Model of Python's `s.replace(old, new)` (for non-empty `old`, the only way
the repository calls it). -/
def pyReplace (s old new : String) : String :=
  ⟨pyReplaceAux old.data new.data s.data.length s.data⟩

/-- Model of Python's `s.lower()` (ASCII case folding, as used on the
timestamp token `ts_nodash`). -/
def pyLower (s : String) : String := ⟨s.data.map Char.toLower⟩

/-- Model of Python's `sep.join(list)`. -/
def joinSep (sep : String) : List String → String
  | [] => ""
  | [s] => s
  | s :: t :: rest => s ++ sep ++ joinSep sep (t :: rest)

/-- Python `dict` assignment: replace the value in place if the key exists,
append otherwise (insertion-order semantics of CPython dicts). -/
def dictInsert (d : List (String × String)) (k v : String) : List (String × String) :=
  match d with
  | [] => [(k, v)]
  | (k', v') :: rest => if k' = k then (k, v) :: rest else (k', v') :: dictInsert rest k v

/-- Python `dict` lookup (keys are unique in a well-formed dict, so the first
match is the binding). -/
def dictGet (d : List (String × String)) (k : String) : Option String :=
  match d with
  | [] => none
  | (k', v') :: rest => if k' = k then some v' else dictGet rest k

/-- Python `base.update(extra)`: fold every binding of `extra` into `base`. -/
def dictUpdate (base extra : List (String × String)) : List (String × String) :=
  extra.foldl (fun d kv => dictInsert d kv.1 kv.2) base

/-- Python truthiness of an `Optional[str]`: `None` and `""` are falsy. -/
def optStrTruthy : Option String → Bool
  | none => false
  | some s => s ≠ ""

/-- Python truthiness of an `Optional[int]`: `None` and `0` are falsy. -/
def optIntTruthy : Option Int → Bool
  | none => false
  | some n => n ≠ 0

/-! Section: `DbtSparkConfig` (dbt_spark_operator.py, lines 30-66) -/

/-- The `DbtSparkConfig` dataclass with its field defaults. -/
structure DbtSparkConfig where
  dbt_project_dir : String := "/dbt"
  dbt_profiles_dir : String := "/dbt/profiles"
  namespace_ : String := "airflow"
  image : String := "dbt-spark:latest"
  image_pull_policy : String := "IfNotPresent"
  spark_host : String := "kyuubi-dbt.kyuubi.svc.cluster.local"
  spark_port : Int := 10009
  spark_schema : String := "default"
  cpu_request : String := "250m"
  cpu_limit : String := "500m"
  memory_request : String := "512Mi"
  memory_limit : String := "1Gi"
  dbt_volume_name : String := "dbt-volume"
  dbt_mount_path : String := "/dbt"
  host_dbt_path : String := "/opt/dbt"
  kyuubi_session_timeout : Int := 300
  extra_env_vars : List (String × String) := []
deriving Repr, DecidableEq

/-- The `DbtSparkConfig()` instance with every default. -/
def defaultDbtSparkConfig : DbtSparkConfig := {}

/-! Section: `DbtSparkOperator` state after `__init__` (lines 103-128) -/

/-- The fields `DbtSparkOperator.__init__` stores on `self` (plus the
`task_id` kept by the Airflow `BaseOperator`).  `__init__` normalises
`vars or {}` and `config or DbtSparkConfig.from_airflow_config()`; here
`vars` is already the normalised dict (a `None` argument becomes `[]`). -/
structure DbtSparkOperator where
  task_id : String := "task"
  command : String
  select : Option String := none
  exclude : Option String := none
  vars : List (String × String) := []
  target : String := "dev"
  full_refresh : Bool := false
  threads : Int := 1
  num_executors : Option Int := none
  config : DbtSparkConfig := {}
deriving Repr, DecidableEq

/-- The `DbtSparkOperator.__init__` call viewed as a fallible constructor
(`Except` models Python exception flow).  The source body performs no
validation and contains no `raise`, so every input constructs successfully. -/
def mkDbtSparkOperatorE (task_id command : String) (select exclude : Option String)
    (vars : Option (List (String × String))) (target : String) (full_refresh : Bool)
    (threads : Int) (num_executors : Option Int) (config : Option DbtSparkConfig) :
    Except String DbtSparkOperator :=
  Except.ok
    { task_id := task_id
      command := command
      select := select
      exclude := exclude
      vars := vars.getD []
      target := target
      full_refresh := full_refresh
      threads := threads
      num_executors := num_executors
      config := config.getD {} }

/-! Section: `_build_dbt_command` and the per-flag allow-lists (lines 130-169) -/

/-- Source method `_command_supports_vars` (line 159). -/
def commandSupportsVars (op : DbtSparkOperator) : Bool :=
  op.command ∈ (["run", "test", "compile", "seed", "snapshot"] : List String)

/-- Source method `_command_supports_full_refresh` (line 163). -/
def commandSupportsFullRefresh (op : DbtSparkOperator) : Bool :=
  op.command ∈ (["run", "seed"] : List String)

/-- Source method `_command_supports_threads` (line 167). -/
def commandSupportsThreads (op : DbtSparkOperator) : Bool :=
  op.command ∈ (["run", "test", "compile", "seed", "snapshot"] : List String)

/-- The `--vars` payload `'{' + ' '.join(f'k:v') + '}'` (lines 146-147).
`vars` values are pre-rendered strings (Python applies `str` in the
f-string). -/
def varsPayload (op : DbtSparkOperator) : String :=
  "\x7b" ++ joinSep " " (op.vars.map fun kv => kv.1 ++ ":" ++ kv.2) ++ "\x7d"

/-- Source method `DbtSparkOperator._build_dbt_command` (lines 130-157), with each
`cmd.extend`/`cmd.append` becoming a list append. -/
def buildDbtCommand (op : DbtSparkOperator) : List String :=
  ["dbt", op.command]
    ++ ["--target", op.target]
    ++ ["--profiles-dir", op.config.dbt_profiles_dir]
    ++ (if optStrTruthy op.select then ["--select", op.select.getD ""] else [])
    ++ (if optStrTruthy op.exclude then ["--exclude", op.exclude.getD ""] else [])
    ++ (if op.vars ≠ [] ∧ commandSupportsVars op then ["--vars", varsPayload op] else [])
    ++ (if op.full_refresh ∧ commandSupportsFullRefresh op then ["--full-refresh"] else [])
    ++ (if commandSupportsThreads op then ["--threads", pyStrInt op.threads] else [])

/-- The operator of the spec's first example: `run` over `tag:staging`. -/
def exampleRunOp : DbtSparkOperator :=
  { command := "run", select := some "tag:staging", target := "dev", threads := 1 }

/-- The operator of the spec's second example: bare `debug`. -/
def exampleDebugOp : DbtSparkOperator :=
  { command := "debug", target := "dev" }

/-! Section: Character-level facts about rendered integers and the vars payload -/

theorem digitChar_isDigit (n : Nat) (h : n < 10) : (Nat.digitChar n).isDigit = true := by
  interval_cases n <;> decide

theorem natReprGo_digits (fuel : Nat) :
    ∀ n c, c ∈ natReprGo fuel n → c.isDigit = true := by
  induction fuel with
  | zero => intro n c hc; rw [natReprGo_zero] at hc; cases hc
  | succ fuel ih =>
    intro n c hc
    rw [natReprGo_succ] at hc
    by_cases h : n < 10
    · rw [if_pos h] at hc
      rcases List.mem_singleton.mp hc with rfl
      exact digitChar_isDigit n h
    · rw [if_neg h] at hc
      rcases List.mem_append.mp hc with h1 | h1
      · exact ih _ _ h1
      · rcases List.mem_singleton.mp h1 with rfl
        exact digitChar_isDigit _ (Nat.mod_lt n (by norm_num))

theorem dash_not_mem_natReprGo (fuel n : Nat) : '-' ∉ natReprGo fuel n := by
  intro h
  have := natReprGo_digits fuel n '-' h
  simp [Char.isDigit] at this

theorem pyStrInt_data_ne_ddash (i : Int) (rest : List Char) :
    (pyStrInt i).data ≠ '-' :: '-' :: rest := by
  intro h
  unfold pyStrInt at h
  split at h
  · have h' : natReprL i.natAbs = '-' :: rest := by
      simpa using h
    exact dash_not_mem_natReprGo _ _ (h' ▸ List.mem_cons_self '-' rest)
  · have : '-' ∈ natReprL i.natAbs := by
      have h' : natReprL i.natAbs = '-' :: '-' :: rest := by simpa using h
      rw [h']; exact List.mem_cons_self _ _
    exact dash_not_mem_natReprGo _ _ this

theorem pyStrInt_ne_vars_flag (i : Int) : pyStrInt i ≠ "--vars" := by
  intro h
  exact pyStrInt_data_ne_ddash i ['v', 'a', 'r', 's']
    ((congrArg String.data h).trans (by decide))

theorem pyStrInt_ne_fr_flag (i : Int) : pyStrInt i ≠ "--full-refresh" := by
  intro h
  exact pyStrInt_data_ne_ddash i ['f', 'u', 'l', 'l', '-', 'r', 'e', 'f', 'r', 'e', 's', 'h']
    ((congrArg String.data h).trans (by decide))

theorem pyStrInt_ne_threads_flag (i : Int) : pyStrInt i ≠ "--threads" := by
  intro h
  exact pyStrInt_data_ne_ddash i ['t', 'h', 'r', 'e', 'a', 'd', 's']
    ((congrArg String.data h).trans (by decide))

theorem varsPayload_data (op : DbtSparkOperator) :
    ∃ l, (varsPayload op).data = '\x7b' :: l := by
  refine ⟨(joinSep " " (op.vars.map fun kv => kv.1 ++ ":" ++ kv.2)).data ++ "\x7d".data, ?_⟩
  simp [varsPayload]

theorem varsPayload_ne_ddash (op : DbtSparkOperator) (s : String)
    (hs : ∃ r, s.data = '-' :: r) : varsPayload op ≠ s := by
  intro h
  rcases varsPayload_data op with ⟨l, hl⟩
  rcases hs with ⟨r, hr⟩
  rw [h, hr] at hl
  cases hl

/-- The three subcommand-conditional flag tokens. -/
def subcommandFlags : List String := ["--vars", "--full-refresh", "--threads"]

/-- Membership in a conditionally emitted segment. -/
theorem mem_ite_list {c : Prop} [Decidable c] {x : String} {l : List String} :
    x ∈ (if c then l else []) ↔ c ∧ x ∈ l := by
  split_ifs with h
  · simp [h]
  · simp [h]

/-- Characterisation of membership in the built command list, segment by
segment (positional arguments, selection, variables, full-refresh, threads). -/
theorem mem_buildDbtCommand (x : String) (op : DbtSparkOperator) :
    x ∈ buildDbtCommand op ↔
      x = "dbt" ∨ x = op.command ∨ x = "--target" ∨ x = op.target ∨
        x = "--profiles-dir" ∨ x = op.config.dbt_profiles_dir ∨
        (optStrTruthy op.select = true ∧ (x = "--select" ∨ x = op.select.getD "")) ∨
        (optStrTruthy op.exclude = true ∧ (x = "--exclude" ∨ x = op.exclude.getD "")) ∨
        ((op.vars ≠ [] ∧ commandSupportsVars op = true) ∧
          (x = "--vars" ∨ x = varsPayload op)) ∨
        ((op.full_refresh = true ∧ commandSupportsFullRefresh op = true) ∧
          x = "--full-refresh") ∨
        (commandSupportsThreads op = true ∧ (x = "--threads" ∨ x = pyStrInt op.threads)) := by
  simp only [buildDbtCommand, List.mem_append, mem_ite_list, List.mem_cons,
    List.not_mem_nil, or_false, or_assoc]

/-- C1: in the built command list, `--vars` occurs only for subcommands in
the vars allow-list, `--full-refresh` only for run/seed and only when
requested, and `--threads` only for subcommands in the threads allow-list —
for any supplied variables, full-refresh flag and thread count.  The
free-form string parameters are assumed not to be the literal flag tokens
themselves (a flag token passed as e.g. the subcommand would appear in the
list as a positional argument, not as an emitted flag). -/
theorem conditional_flags_only_for_allowlisted (op : DbtSparkOperator)
    (hcmd : op.command ∉ subcommandFlags)
    (htgt : op.target ∉ subcommandFlags)
    (hdir : op.config.dbt_profiles_dir ∉ subcommandFlags)
    (hsel : ∀ s, op.select = some s → s ∉ subcommandFlags)
    (hexc : ∀ s, op.exclude = some s → s ∉ subcommandFlags) :
    ("--vars" ∈ buildDbtCommand op →
        op.command ∈ (["run", "test", "compile", "seed", "snapshot"] : List String))
    ∧ ("--full-refresh" ∈ buildDbtCommand op →
        op.full_refresh = true ∧ op.command ∈ (["run", "seed"] : List String))
    ∧ ("--threads" ∈ buildDbtCommand op →
        op.command ∈ (["run", "test", "compile", "seed", "snapshot"] : List String)) := by
  obtain ⟨hcmd1, hcmd2, hcmd3⟩ :
      op.command ≠ "--vars" ∧ op.command ≠ "--full-refresh" ∧ op.command ≠ "--threads" := by
    simpa [subcommandFlags] using hcmd
  obtain ⟨htgt1, htgt2, htgt3⟩ :
      op.target ≠ "--vars" ∧ op.target ≠ "--full-refresh" ∧ op.target ≠ "--threads" := by
    simpa [subcommandFlags] using htgt
  obtain ⟨hdir1, hdir2, hdir3⟩ :
      op.config.dbt_profiles_dir ≠ "--vars" ∧ op.config.dbt_profiles_dir ≠ "--full-refresh" ∧
        op.config.dbt_profiles_dir ≠ "--threads" := by
    simpa [subcommandFlags] using hdir
  have hselD : ∀ f, f ∈ subcommandFlags → optStrTruthy op.select = true →
      f ≠ op.select.getD "" := by
    intro f hf htr heq
    cases hos : op.select with
    | none => rw [hos] at htr; simp [optStrTruthy] at htr
    | some s =>
      have := hsel s hos
      rw [hos] at heq
      simp only [Option.getD] at heq
      exact this (heq ▸ hf)
  have hexcD : ∀ f, f ∈ subcommandFlags → optStrTruthy op.exclude = true →
      f ≠ op.exclude.getD "" := by
    intro f hf htr heq
    cases hos : op.exclude with
    | none => rw [hos] at htr; simp [optStrTruthy] at htr
    | some s =>
      have := hexc s hos
      rw [hos] at heq
      simp only [Option.getD] at heq
      exact this (heq ▸ hf)
  refine ⟨?_, ?_, ?_⟩
  · intro h
    rw [mem_buildDbtCommand] at h
    rcases h with h | h | h | h | h | h | ⟨ht, h | h⟩ | ⟨ht, h | h⟩ |
      ⟨⟨_, hsup⟩, _⟩ | ⟨_, h⟩ | ⟨hsup, h | h⟩
    · exact absurd h (by decide)
    · exact absurd h.symm hcmd1
    · exact absurd h (by decide)
    · exact absurd h.symm htgt1
    · exact absurd h (by decide)
    · exact absurd h.symm hdir1
    · exact absurd h (by decide)
    · exact absurd h (hselD "--vars" (by decide) ht)
    · exact absurd h (by decide)
    · exact absurd h (hexcD "--vars" (by decide) ht)
    · simpa [commandSupportsVars] using hsup
    · exact absurd h (by decide)
    · exact absurd h (by decide)
    · exact absurd h.symm (pyStrInt_ne_vars_flag op.threads)
  · intro h
    rw [mem_buildDbtCommand] at h
    rcases h with h | h | h | h | h | h | ⟨ht, h | h⟩ | ⟨ht, h | h⟩ |
      ⟨_, h | h⟩ | ⟨⟨hfr, hsup⟩, _⟩ | ⟨hsup, h | h⟩
    · exact absurd h (by decide)
    · exact absurd h.symm hcmd2
    · exact absurd h (by decide)
    · exact absurd h.symm htgt2
    · exact absurd h (by decide)
    · exact absurd h.symm hdir2
    · exact absurd h (by decide)
    · exact absurd h (hselD "--full-refresh" (by decide) ht)
    · exact absurd h (by decide)
    · exact absurd h (hexcD "--full-refresh" (by decide) ht)
    · exact absurd h (by decide)
    · exact absurd h.symm
        (varsPayload_ne_ddash op "--full-refresh"
          ⟨['-', 'f', 'u', 'l', 'l', '-', 'r', 'e', 'f', 'r', 'e', 's', 'h'], by decide⟩)
    · exact ⟨hfr, by simpa [commandSupportsFullRefresh] using hsup⟩
    · exact absurd h (by decide)
    · exact absurd h.symm (pyStrInt_ne_fr_flag op.threads)
  · intro h
    rw [mem_buildDbtCommand] at h
    rcases h with h | h | h | h | h | h | ⟨ht, h | h⟩ | ⟨ht, h | h⟩ |
      ⟨_, h | h⟩ | ⟨_, h⟩ | ⟨hsup, _⟩
    · exact absurd h (by decide)
    · exact absurd h.symm hcmd3
    · exact absurd h (by decide)
    · exact absurd h.symm htgt3
    · exact absurd h (by decide)
    · exact absurd h.symm hdir3
    · exact absurd h (by decide)
    · exact absurd h (hselD "--threads" (by decide) ht)
    · exact absurd h (by decide)
    · exact absurd h (hexcD "--threads" (by decide) ht)
    · exact absurd h (by decide)
    · exact absurd h.symm
        (varsPayload_ne_ddash op "--threads"
          ⟨['-', 't', 'h', 'r', 'e', 'a', 'd', 's'], by decide⟩)
    · exact absurd h (by decide)
    · simpa [commandSupportsThreads] using hsup

/-- C1 witness at the pipeline's staging-run operator. -/
theorem conditional_flags_witness_run :
    ("--vars" ∈ buildDbtCommand exampleRunOp →
        exampleRunOp.command ∈ (["run", "test", "compile", "seed", "snapshot"] : List String))
    ∧ ("--full-refresh" ∈ buildDbtCommand exampleRunOp →
        exampleRunOp.full_refresh = true ∧
          exampleRunOp.command ∈ (["run", "seed"] : List String))
    ∧ ("--threads" ∈ buildDbtCommand exampleRunOp →
        exampleRunOp.command ∈ (["run", "test", "compile", "seed", "snapshot"] : List String)) :=
  conditional_flags_only_for_allowlisted exampleRunOp (by decide) (by decide) (by decide)
    (fun s hs => by
      have h : "tag:staging" = s := Option.some.inj hs
      subst h; decide)
    (fun s hs => Option.noConfusion hs)

/-- C4: the two worked examples of the spec, evaluated against
`_build_dbt_command` with the default profiles directory. -/
theorem buildDbtCommand_spec_examples :
    buildDbtCommand exampleRunOp =
      ["dbt", "run", "--target", "dev", "--profiles-dir", "/dbt/profiles",
       "--select", "tag:staging", "--threads", "1"]
    ∧ buildDbtCommand exampleDebugOp =
      ["dbt", "debug", "--target", "dev", "--profiles-dir", "/dbt/profiles"] := by
  decide

/-- C9: the built command carries `--vars` exactly when the variables dict is
non-empty and the subcommand supports variables (again assuming the free-form
string parameters are not the literal `--vars` token). -/
theorem vars_flag_iff_nonempty_and_allowlisted (op : DbtSparkOperator)
    (hcmd : op.command ≠ "--vars") (htgt : op.target ≠ "--vars")
    (hdir : op.config.dbt_profiles_dir ≠ "--vars")
    (hsel : ∀ s, op.select = some s → s ≠ "--vars")
    (hexc : ∀ s, op.exclude = some s → s ≠ "--vars") :
    "--vars" ∈ buildDbtCommand op ↔
      op.vars ≠ [] ∧
        op.command ∈ (["run", "test", "compile", "seed", "snapshot"] : List String) := by
  constructor
  · intro h
    rw [mem_buildDbtCommand] at h
    rcases h with h | h | h | h | h | h | ⟨ht, h | h⟩ | ⟨ht, h | h⟩ |
      ⟨⟨hv, hsup⟩, _⟩ | ⟨_, h⟩ | ⟨hsup, h | h⟩
    · exact absurd h (by decide)
    · exact absurd h.symm hcmd
    · exact absurd h (by decide)
    · exact absurd h.symm htgt
    · exact absurd h (by decide)
    · exact absurd h.symm hdir
    · exact absurd h (by decide)
    · cases hos : op.select with
      | none => rw [hos] at ht; simp [optStrTruthy] at ht
      | some s =>
        rw [hos] at h
        exact absurd (by simpa using h.symm) (hsel s hos)
    · exact absurd h (by decide)
    · cases hos : op.exclude with
      | none => rw [hos] at ht; simp [optStrTruthy] at ht
      | some s =>
        rw [hos] at h
        exact absurd (by simpa using h.symm) (hexc s hos)
    · exact ⟨hv, by simpa [commandSupportsVars] using hsup⟩
    · exact absurd h (by decide)
    · exact absurd h (by decide)
    · exact absurd h.symm (pyStrInt_ne_vars_flag op.threads)
  · rintro ⟨hv, hin⟩
    rw [mem_buildDbtCommand]
    refine Or.inr (Or.inr (Or.inr (Or.inr (Or.inr (Or.inr (Or.inr (Or.inr (Or.inl
      ⟨⟨hv, ?_⟩, Or.inl rfl⟩))))))))
    simpa [commandSupportsVars] using hin

/-- An operator whose subcommand (`deps`) is outside the vars allow-list but
which was nevertheless given variables. -/
def depsVarsOp : DbtSparkOperator :=
  { command := "deps", vars := [("env", "dev")] }

/-- C9 witness: for `deps`, supplied variables are not emitted. -/
theorem vars_flag_iff_witness : "--vars" ∉ buildDbtCommand depsVarsOp := by
  intro h
  have h2 := (vars_flag_iff_nonempty_and_allowlisted depsVarsOp (by decide) (by decide)
    (by decide) (fun s hs => Option.noConfusion hs) (fun s hs => Option.noConfusion hs)).mp h
  exact absurd h2.2 (by decide)

/-- The fixed subcommand set enumerated by the spec. -/
def enumeratedSubcommands : List String :=
  ["run", "test", "debug", "deps", "docs generate", "seed", "snapshot", "compile",
   "source freshness"]

/-- C2 counterexample: constructing the operator with a subcommand outside the
enumerated set succeeds — no error is raised at graph-construction time. -/
theorem unknown_subcommand_construction_succeeds :
    (mkDbtSparkOperatorE "t" "frobnicate" none none none "dev" false 1 none none).isOk = true
    ∧ "frobnicate" ∉ enumeratedSubcommands := by
  decide

/-- C2 amended: the builder performs no subcommand validation and never
raises — construction succeeds for every argument combination, and the
subcommand string is passed through verbatim as the second element of the
built command list. -/
theorem builder_never_raises (task cmd : String) (sel exc : Option String)
    (vars : Option (List (String × String))) (tgt : String) (fr : Bool) (thr : Int)
    (ne : Option Int) (cfg : Option DbtSparkConfig) :
    (mkDbtSparkOperatorE task cmd sel exc vars tgt fr thr ne cfg).isOk = true
    ∧ ∀ op, mkDbtSparkOperatorE task cmd sel exc vars tgt fr thr ne cfg = Except.ok op →
        (buildDbtCommand op)[1]? = some cmd := by
  refine ⟨rfl, ?_⟩
  intro op hop
  cases hop
  rfl

/-- C2 amended-theorem witness at the out-of-set subcommand. -/
theorem builder_never_raises_witness :
    (buildDbtCommand
        { task_id := "t", command := "frobnicate", vars := [], target := "dev",
          full_refresh := false, threads := 1 })[1]? = some "frobnicate" :=
  (builder_never_raises "t" "frobnicate" none none none "dev" false 1 none none).2 _ rfl

/-! Section: Pod naming in `execute` (dbt_spark_operator.py, lines 339-349) -/

/-- The `model_name` computation: the fallback literal is `"unknown"`; a truthy
`select` is taken with every `"tag:"` occurrence removed and every space
replaced by a hyphen.  (The `self.models` branch is dead for
`DbtSparkOperator`: `__init__` never stores a `models` attribute.) -/
def buildModelName (select : Option String) : String :=
  if optStrTruthy select then
    pyReplace (pyReplace (select.getD "") "tag:" "") " " "-"
  else "unknown"

/-- Line 349: `pod_name = f"dbt-{model_name}-{context['ts_nodash'].lower()}"`. -/
def buildPodName (select : Option String) (ts_nodash : String) : String :=
  "dbt-" ++ buildModelName select ++ "-" ++ pyLower ts_nodash

/-- Spaces never survive the `" " → "-"` replacement pass. -/
theorem pyReplaceAux_space_free (fuel : Nat) :
    ∀ s : List Char, s.length ≤ fuel → ' ' ∉ pyReplaceAux [' '] ['-'] fuel s := by
  induction fuel with
  | zero =>
    intro s hs
    have : s = [] := List.eq_nil_of_length_eq_zero (Nat.le_zero.mp hs)
    subst this
    simp [pyReplaceAux]
  | succ fuel ih =>
    intro s hs
    cases s with
    | nil => simp [pyReplaceAux]
    | cons c cs =>
      have hcs : cs.length ≤ fuel := by simpa using hs
      by_cases hc : c = ' '
      · subst hc
        have hcond : ([' '] : List Char) ≠ [] ∧ listStartsWith [' '] (' ' :: cs) = true := by
          refine ⟨by simp, ?_⟩
          simp [listStartsWith]
        rw [pyReplaceAux, if_pos hcond]
        intro hmem
        rcases List.mem_append.mp hmem with h1 | h1
        · simp at h1
        · exact ih _ (by simpa using hcs) h1
      · have hcond : ¬ (([' '] : List Char) ≠ [] ∧ listStartsWith [' '] (c :: cs) = true) := by
          intro hcond
          have := hcond.2
          simp [listStartsWith] at this
          exact hc this.symm
        rw [pyReplaceAux, if_neg hcond]
        intro hmem
        rcases List.mem_cons.mp hmem with h1 | h1
        · exact hc h1.symm
        · exact ih _ hcs h1

/-- ASCII lower-casing maps only `'A'..'Z'` (to `'a'..'z'`); in particular it
never produces a space from a non-space. -/
theorem toLower_eq_space {c : Char} (h : Char.toLower c = ' ') : c = ' ' := by
  replace h : (if c.toNat ≥ 65 ∧ c.toNat ≤ 90 then Char.ofNat (c.toNat + 32) else c) = ' ' := h
  split at h
  · exfalso
    rename_i hc
    have hvalid : (c.toNat + 32).isValidChar := Or.inl (by omega)
    have h32 : (Char.ofNat (c.toNat + 32)).toNat = c.toNat + 32 := by
      rw [Char.ofNat, dif_pos hvalid]
      rfl
    rw [h] at h32
    have : (' ' : Char).toNat = 32 := rfl
    omega
  · exact h

/-- Lower-casing introduces no space that `s` did not contain. -/
theorem pyLower_space_free (s : String) (h : ' ' ∉ s.data) : ' ' ∉ (pyLower s).data := by
  intro hmem
  simp only [pyLower] at hmem
  rcases List.mem_map.mp hmem with ⟨c, hc, hceq⟩
  exact h (toLower_eq_space hceq ▸ hc)

/-- The selection-derived part of the pod name contains no space. -/
theorem buildModelName_space_free (sel : Option String) :
    ' ' ∉ (buildModelName sel).data := by
  unfold buildModelName
  split_ifs with h
  · show ' ' ∉ pyReplaceAux [' '] ['-'] _ _
    exact pyReplaceAux_space_free _ _ le_rfl
  · decide

/-- Substring containment (Python's `in` on strings). -/
def containsStr (s pat : String) : Prop := pat.data <:+: s.data

/-- C3 counterexample: the pod name built for the selection expression
`"ttag:ag: X"` (and a normal timestamp token) still contains an uppercase
letter and a `"tag:"` substring — the selection part is not lower-cased, and
removing `"tag:"` occurrences can splice a new one together. -/
theorem pod_name_sanitization_fails :
    buildPodName (some "ttag:ag: X") "20240101T000000" = "dbt-tag:-X-20240101t000000"
    ∧ 'X' ∈ (buildPodName (some "ttag:ag: X") "20240101T000000").data
    ∧ Char.isUpper 'X' = true
    ∧ containsStr (buildPodName (some "ttag:ag: X") "20240101T000000") "tag:" := by
  refine ⟨by decide, by decide, by decide, ?_⟩
  show "tag:".data <:+: _
  decide

/-- C3 amended: pod naming is deterministic with fallback literal
`"unknown"`; spaces from the selection are replaced by hyphens and the
timestamp token is lower-cased, so the name is space-free whenever the
timestamp token is; but the selection part keeps its letter case and may
contain `"tag:"`. -/
theorem pod_name_deterministic_and_space_free :
    (∀ sel ts, buildPodName sel ts = buildPodName sel ts)
    ∧ (∀ ts, buildPodName none ts = "dbt-unknown-" ++ pyLower ts)
    ∧ (∀ sel ts, ' ' ∉ ts.data → ' ' ∉ (buildPodName sel ts).data) := by
  refine ⟨fun sel ts => rfl, fun ts => rfl, ?_⟩
  intro sel ts hts hmem
  have hdata : (buildPodName sel ts).data =
      "dbt-".data ++ (buildModelName sel).data ++ "-".data ++ (pyLower ts).data := by
    simp [buildPodName]
  rw [hdata] at hmem
  rcases List.mem_append.mp hmem with h1 | h1
  · rcases List.mem_append.mp h1 with h2 | h2
    · rcases List.mem_append.mp h2 with h3 | h3
      · simp at h3
      · exact buildModelName_space_free sel h3
    · simp at h2
  · exact pyLower_space_free ts hts h1

/-- C3 amended-theorem witness at the pipeline's staging selection. -/
theorem pod_name_space_free_witness :
    ' ' ∉ (buildPodName (some "tag:staging") "20240101T000000").data :=
  pod_name_deterministic_and_space_free.2.2 (some "tag:staging") "20240101T000000" (by decide)

/-! Section: `EnvironmentType` and `from_environment` (pipeline_config.py, lines 18-22, 158-167) -/

/-- The `EnvironmentType` enum. -/
inductive EnvironmentType where
  | DEVELOPMENT
  | STAGING
  | PRODUCTION
deriving Repr, DecidableEq

/-- The enum member values (`"dev"`, `"staging"`, `"prod"`). -/
def EnvironmentType.value : EnvironmentType → String
  | .DEVELOPMENT => "dev"
  | .STAGING => "staging"
  | .PRODUCTION => "prod"

/-- The enum constructor call `EnvironmentType(env_str)`: value lookup,
`ValueError` on anything that is not a member value. -/
def envTypeOfString (s : String) : Except String EnvironmentType :=
  if s = "dev" then Except.ok .DEVELOPMENT
  else if s = "staging" then Except.ok .STAGING
  else if s = "prod" then Except.ok .PRODUCTION
  else Except.error "ValueError"

/-- Line 163: `env_override or os.getenv('DATA_PLATFORM_ENV', 'dev')`;
Python `or` falls through on a falsy (absent or empty) override;
`dataPlatformEnv` is the raw environment variable, `none` when unset. -/
def effectiveEnvStr (envOverride dataPlatformEnv : Option String) : String :=
  if optStrTruthy envOverride then envOverride.getD "" else dataPlatformEnv.getD "dev"

/-- Lines 163-167 of `from_environment`: parse the effective string, catching
the `ValueError` and falling back to `DEVELOPMENT`. -/
def resolveEnvironment (envOverride dataPlatformEnv : Option String) : EnvironmentType :=
  match envTypeOfString (effectiveEnvStr envOverride dataPlatformEnv) with
  | Except.ok t => t
  | Except.error _ => .DEVELOPMENT

/-- C5: environment-tag resolution is total — every input resolves to one of
the three tags, member values resolve to their tag, anything outside the
member-value set falls back to `DEVELOPMENT`, and full absence yields
`DEVELOPMENT`. -/
theorem env_resolution_total :
    (∀ o v, resolveEnvironment o v = .DEVELOPMENT ∨ resolveEnvironment o v = .STAGING ∨
        resolveEnvironment o v = .PRODUCTION)
    ∧ (∀ o v (t : EnvironmentType), effectiveEnvStr o v = t.value →
        resolveEnvironment o v = t)
    ∧ (∀ o v, effectiveEnvStr o v ∉ (["dev", "staging", "prod"] : List String) →
        resolveEnvironment o v = .DEVELOPMENT)
    ∧ resolveEnvironment none none = .DEVELOPMENT := by
  refine ⟨?_, ?_, ?_, rfl⟩
  · intro o v
    cases h : resolveEnvironment o v
    · exact Or.inl rfl
    · exact Or.inr (Or.inl rfl)
    · exact Or.inr (Or.inr rfl)
  · intro o v t h
    unfold resolveEnvironment
    rw [h]
    cases t <;> rfl
  · intro o v h
    simp only [List.mem_cons, List.not_mem_nil, or_false, not_or] at h
    obtain ⟨h1, h2, h3⟩ := h
    unfold resolveEnvironment envTypeOfString
    rw [if_neg h1, if_neg h2, if_neg h3]

/-- C5 witness: the unknown value `"qa"` silently resolves to development. -/
theorem env_resolution_witness :
    resolveEnvironment (some "qa") none = EnvironmentType.DEVELOPMENT :=
  env_resolution_total.2.2.1 (some "qa") none (by decide)

/-! Section: `get_schedule_interval` (pipeline_config.py, lines 136-156) -/

/-- The `(environment × pipeline-type)` schedule table with the
`.get(pipeline_type, table["default"])` fallback; `none` is the Python
`None` manual-trigger sentinel. -/
def getScheduleInterval (env : EnvironmentType) (pipeline_type : String) : Option String :=
  match env with
  | .PRODUCTION =>
    if pipeline_type = "default" then some "0 6 * * *"
    else if pipeline_type = "hourly" then some "0 * * * *"
    else if pipeline_type = "critical" then some "*/30 * * * *"
    else some "0 6 * * *"
  | .STAGING =>
    if pipeline_type = "default" then some "0 8 * * *"
    else if pipeline_type = "hourly" then some "0 */2 * * *"
    else if pipeline_type = "critical" then some "0 */6 * * *"
    else some "0 8 * * *"
  | .DEVELOPMENT =>
    if pipeline_type = "default" then none
    else if pipeline_type = "hourly" then none
    else if pipeline_type = "critical" then none
    else none

/-- C8: production/hourly is `"0 * * * *"`, development always yields the
manual-trigger sentinel, and unknown pipeline types fall back to the
environment's `"default"` entry. -/
theorem schedule_lookup_spec :
    getScheduleInterval .PRODUCTION "hourly" = some "0 * * * *"
    ∧ (∀ p, getScheduleInterval .DEVELOPMENT p = none)
    ∧ (∀ env p, p ∉ (["default", "hourly", "critical"] : List String) →
        getScheduleInterval env p = getScheduleInterval env "default") := by
  refine ⟨rfl, ?_, ?_⟩
  · intro p
    unfold getScheduleInterval
    split_ifs <;> rfl
  · intro env p hp
    simp only [List.mem_cons, List.not_mem_nil, or_false, not_or] at hp
    obtain ⟨h1, h2, h3⟩ := hp
    cases env <;> simp [getScheduleInterval, h1, h2, h3]

/-- C8 witness: an unknown pipeline type in staging uses staging's default. -/
theorem schedule_lookup_witness :
    getScheduleInterval .STAGING "weekly" = getScheduleInterval .STAGING "default" :=
  schedule_lookup_spec.2.2 .STAGING "weekly" (by decide)

/-! Section: `PipelineConfig` defaults and the DAG registration -/

/-- The `PipelineConfig` dataclass defaults (pipeline_config.py, lines 25-79);
`dbt_vars` values are pre-rendered strings. -/
structure PipelineConfig where
  environment : EnvironmentType := .DEVELOPMENT
  dbt_project_name : String := "analytics"
  dbt_target : String := "dev"
  dbt_threads : Int := 4
  dbt_vars : List (String × String) := []
  k8s_namespace : String := "airflow"
  dbt_image : String := "dbt-spark:latest"
  dbt_image_pull_policy : String := "IfNotPresent"
  dbt_volume_path : String := "/opt/dbt"
  dag_volume_path : String := "/opt/airflow/dags"
  default_cpu_request : String := "250m"
  default_cpu_limit : String := "1000m"
  default_memory_request : String := "512Mi"
  default_memory_limit : String := "2Gi"
  spark_host : String := "kyuubi-dbt.kyuubi.svc.cluster.local"
  spark_port : Int := 10009
  spark_schema : String := "default"
  default_retries : Int := 2
  default_retry_delay_minutes : Int := 5
  max_active_runs : Int := 1
  warehouse_base_path : String := "s3a://warehouse"
  enable_slack_alerts : Bool := false
  slack_webhook_url : Option String := none
  extra_env_vars : List (String × String) := []
deriving Repr, DecidableEq

/-- The `PipelineConfig()` instance with every default. -/
def defaultPipelineConfig : PipelineConfig := {}

/-- The `default_args` dict of dbt_analytics_pipeline.py (lines 35-45). -/
structure DagDefaultArgs where
  owner : String
  depends_on_past : Bool
  start_date : Nat × Nat × Nat
  email_on_failure : Bool
  email_on_retry : Bool
  retries : Int
  retry_delay_minutes : Int
  config : DbtSparkConfig
deriving Repr, DecidableEq

/-- The literal `default_args` value of the DAG file. -/
def dbtPipelineDefaultArgs : DagDefaultArgs :=
  { owner := "data-platform-team"
    depends_on_past := false
    start_date := (2024, 1, 1)
    email_on_failure := false
    email_on_retry := false
    retries := 1
    retry_delay_minutes := 5
    config := { host_dbt_path := "/home/anhhoangdev/Documents/LocalDataPlatform/dbt" } }

/-- The `DAG(...)` registration call (dbt_analytics_pipeline.py, lines 48-56). -/
structure DagRegistration where
  dag_id : String
  default_args : DagDefaultArgs
  description : String
  schedule_interval_days : Int
  catchup : Bool
  max_active_runs : Int
  tags : List String
deriving Repr, DecidableEq

/-- The registered `dbt_analytics_pipeline_v2` DAG. -/
def dbtAnalyticsPipelineDag : DagRegistration :=
  { dag_id := "dbt_analytics_pipeline_v2"
    default_args := dbtPipelineDefaultArgs
    description := "Clean DBT Analytics Pipeline using DbtSparkOperator"
    schedule_interval_days := 1
    catchup := false
    max_active_runs := 1
    tags := ["dbt", "spark", "k8s", "kyuubi", "clean-architecture"] }

/-- C6 counterexample: the DAG is registered with default retry count 1,
not 2. -/
theorem dag_default_retries_ne_two :
    dbtAnalyticsPipelineDag.default_args.retries = 1
    ∧ dbtAnalyticsPipelineDag.default_args.retries ≠ 2 := by
  decide

/-- C6 amended: the DAG registration uses default retry count 1, default
retry delay 5 minutes and at most one concurrent run; the pipeline-config
class does default `default_retries` to 2 (with 5-minute delay and one
active run), but the DAG file does not consult it. -/
theorem dag_registration_values :
    dbtAnalyticsPipelineDag.default_args.retries = 1
    ∧ dbtAnalyticsPipelineDag.default_args.retry_delay_minutes = 5
    ∧ dbtAnalyticsPipelineDag.max_active_runs = 1
    ∧ defaultPipelineConfig.default_retries = 2
    ∧ defaultPipelineConfig.default_retry_delay_minutes = 5
    ∧ defaultPipelineConfig.max_active_runs = 1 := by
  decide

/-! Section: `_prepare_environment` (dbt_spark_operator.py, lines 237-274) -/

/-- The Airflow context fields read by the operator. -/
structure AirflowContext where
  dag_id : String
  run_id : String
  ds : String
  logical_date_iso : String
  ts_nodash : String
deriving Repr, DecidableEq

/-- The `base_env` dict literal (lines 239-269), in source order. -/
def baseEnv (op : DbtSparkOperator) (ctx : AirflowContext) : List (String × String) :=
  [("DBT_PROJECT_DIR", op.config.dbt_project_dir),
   ("DBT_PROFILES_DIR", op.config.dbt_profiles_dir),
   ("DBT_TARGET", op.target),
   ("AIRFLOW_TASK_ID", op.task_id),
   ("AIRFLOW_DAG_ID", ctx.dag_id),
   ("AIRFLOW_RUN_ID", ctx.run_id),
   ("AIRFLOW_EXECUTION_DATE", ctx.ds),
   ("AIRFLOW_LOGICAL_DATE", ctx.logical_date_iso),
   ("KYUUBI_HOST", op.config.spark_host),
   ("KYUUBI_PORT", pyStrInt op.config.spark_port),
   ("KYUUBI_SCHEMA", op.config.spark_schema),
   ("DBT_COMMAND", op.command),
   ("DBT_SELECT", op.select.getD ""),
   ("DBT_EXCLUDE", op.exclude.getD ""),
   ("DBT_FULL_REFRESH", if op.full_refresh then "true" else "false"),
   ("DBT_THREADS", pyStrInt op.threads),
   ("K8S_NAMESPACE", op.config.namespace_),
   ("K8S_POD_NAME", "$\x7bHOSTNAME\x7d")]

/-- Source method `_prepare_environment`: the base dict, then
`base_env.update(self.config.extra_env_vars)` (line 272). -/
def prepareEnvironment (op : DbtSparkOperator) (ctx : AirflowContext) :
    List (String × String) :=
  dictUpdate (baseEnv op ctx) op.config.extra_env_vars

theorem dictGet_dictInsert_self (d : List (String × String)) (k v : String) :
    dictGet (dictInsert d k v) k = some v := by
  induction d with
  | nil => simp [dictInsert, dictGet]
  | cons kv rest ih =>
    obtain ⟨k', v'⟩ := kv
    by_cases h : k' = k
    · subst h
      simp [dictInsert, dictGet]
    · simp [dictInsert, dictGet, h, ih]

theorem dictGet_dictInsert_ne (d : List (String × String)) (k k' v : String)
    (h : k' ≠ k) : dictGet (dictInsert d k' v) k = dictGet d k := by
  induction d with
  | nil => simp [dictInsert, dictGet, h]
  | cons kv rest ih =>
    obtain ⟨k0, v0⟩ := kv
    by_cases h0 : k0 = k'
    · subst h0
      simp [dictInsert, dictGet, h]
    · by_cases h1 : k0 = k
      · subst h1
        simp [dictInsert, dictGet, h0]
      · simp [dictInsert, dictGet, h0, h1, ih]

theorem dictGet_dictUpdate_not_mem (extra : List (String × String)) :
    ∀ d k, k ∉ extra.map Prod.fst → dictGet (dictUpdate d extra) k = dictGet d k := by
  induction extra with
  | nil => intro d k _; rfl
  | cons kv rest ih =>
    intro d k hk
    obtain ⟨k0, v0⟩ := kv
    simp only [List.map_cons, List.mem_cons, not_or] at hk
    show dictGet (dictUpdate (dictInsert d k0 v0) rest) k = dictGet d k
    rw [ih _ _ hk.2, dictGet_dictInsert_ne _ _ _ _ (fun h => hk.1 h.symm)]

theorem dictGet_dictUpdate_mem (extra : List (String × String))
    (hnd : (extra.map Prod.fst).Nodup) :
    ∀ d k v, (k, v) ∈ extra → dictGet (dictUpdate d extra) k = some v := by
  induction extra with
  | nil => intro d k v hv; cases hv
  | cons kv rest ih =>
    intro d k v hv
    obtain ⟨k0, v0⟩ := kv
    simp only [List.map_cons, List.nodup_cons] at hnd
    rcases List.mem_cons.mp hv with h | h
    · cases h
      show dictGet (dictUpdate (dictInsert d k v) rest) k = some v
      rw [dictGet_dictUpdate_not_mem rest _ _ hnd.1, dictGet_dictInsert_self]
    · exact ih hnd.2 _ _ _ h

/-- C7: the passthrough map is overlaid last — every key it binds ends up
with the passthrough value, and every other key keeps its base value. -/
theorem passthrough_env_overrides (op : DbtSparkOperator) (ctx : AirflowContext)
    (hnd : (op.config.extra_env_vars.map Prod.fst).Nodup) :
    (∀ k v, (k, v) ∈ op.config.extra_env_vars →
        dictGet (prepareEnvironment op ctx) k = some v)
    ∧ (∀ k, k ∉ op.config.extra_env_vars.map Prod.fst →
        dictGet (prepareEnvironment op ctx) k = dictGet (baseEnv op ctx) k) := by
  constructor
  · intro k v hv
    exact dictGet_dictUpdate_mem _ hnd _ _ _ hv
  · intro k hk
    exact dictGet_dictUpdate_not_mem _ _ _ hk

/-- An operator whose config passes through a variable colliding with a
base key (`DBT_TARGET`) and a fresh one. -/
def passthroughOp : DbtSparkOperator :=
  { command := "run", target := "dev",
    config := { extra_env_vars := [("DBT_TARGET", "prod-target"), ("EXTRA_KEY", "x")] } }

/-- A concrete Airflow context. -/
def sampleContext : AirflowContext :=
  { dag_id := "dbt_analytics_pipeline_v2", run_id := "manual__2024-01-01",
    ds := "2024-01-01", logical_date_iso := "2024-01-01T00:00:00+00:00",
    ts_nodash := "20240101T000000" }

/-- C7 witness: the passthrough `DBT_TARGET` wins over the base entry, and a
key outside the passthrough map keeps its base value. -/
theorem passthrough_env_overrides_witness :
    dictGet (prepareEnvironment passthroughOp sampleContext) "DBT_TARGET" =
      some "prod-target"
    ∧ dictGet (prepareEnvironment passthroughOp sampleContext) "DBT_COMMAND" =
        dictGet (baseEnv passthroughOp sampleContext) "DBT_COMMAND" :=
  ⟨(passthrough_env_overrides passthroughOp sampleContext (by decide)).1
      "DBT_TARGET" "prod-target" (by decide),
   (passthrough_env_overrides passthroughOp sampleContext (by decide)).2
      "DBT_COMMAND" (by decide)⟩

/-! Section: `_create_profiles_yaml` (dbt_spark_operator.py, lines 171-203) -/

/-- The `spark_config_lines` list (lines 173-178), kept as `(key, value)` pairs: the
source renders each entry as `'key: value'` and immediately splits it again
on the first `': '` (line 180); every key is a literal containing no `': '`,
so that round-trip recovers exactly these pairs.  The third entry is present
exactly when `self.num_executors` is truthy (`None` and `0` are falsy). -/
def sparkConfigEntries (op : DbtSparkOperator) : List (String × String) :=
  [("spark.kubernetes.executor.podNamePrefix", "\"dbt-spark-\x7b\x7bdag_id\x7d\x7d\""),
   ("spark.app.name", "\"$\x7b\x7bdag_id\x7d\x7d-$\x7b\x7btask_id\x7d\x7d\"")]
  ++ (if optIntTruthy op.num_executors then
        [("spark.executor.instances", "\"" ++ pyStrInt (op.num_executors.getD 0) ++ "\"")]
      else [])

/-- Line 180: `'\n        '.join(f'"{key}": {value}' ...)`. -/
def sparkConfigStr (op : DbtSparkOperator) : String :=
  joinSep "\n        " ((sparkConfigEntries op).map fun kv => "\"" ++ kv.1 ++ "\": " ++ kv.2)

/-- The full profiles.yml document f-string (lines 182-203). -/
def createProfilesYaml (op : DbtSparkOperator) : String :=
  "\nanalytics:\n  target: " ++ op.target ++
  "\n  outputs:\n    " ++ op.target ++
  ":\n      type: spark\n      method: thrift\n      host: " ++ op.config.spark_host ++
  "\n      port: " ++ pyStrInt op.config.spark_port ++
  "\n      user: admin\n      schema: " ++ op.config.spark_schema ++
  "\n      connect_retries: 5\n      connect_timeout: 60\n      retry_all: true\n      # Kyuubi session management\n      session_timeout: " ++
  pyStrInt op.config.kyuubi_session_timeout ++
  "\n      # Custom pod naming for Spark executors (controlled by Kyuubi pod templates)\n      # Pod names will be: dbt-spark-\x7b\x7b dag_id \x7d\x7d-\x7b\x7b model_name \x7d\x7d-exec-\x7b\x7b id \x7d\x7d\n      spark_config:\n        " ++
  sparkConfigStr op ++
  "\n      # Note: Resource configuration managed by Kyuubi pod templates (0.5 CPU, 1GB RAM per pod)\n"

theorem containsStr_self (s : String) : containsStr s s :=
  ⟨[], [], by simp⟩

theorem containsStr_app_right (a b pat : String) (h : containsStr a pat) :
    containsStr (a ++ b) pat :=
  List.IsInfix.trans h ⟨[], b.data, by simp⟩

theorem containsStr_app_left (a b pat : String) (h : containsStr b pat) :
    containsStr (a ++ b) pat :=
  List.IsInfix.trans h ⟨a.data, [], by simp⟩

/-- The rendered executor-instance override entry for a hint of `n`. -/
def executorOverrideEntry (n : Int) : String :=
  "\"spark.executor.instances\": \"" ++ pyStrInt n ++ "\""

/-- The staging-run operator parametrised by the executor-count hint. -/
def profilesOpWith (ne : Option Int) : DbtSparkOperator :=
  { command := "run", select := some "tag:staging", target := "dev", num_executors := ne }

/-- Boolean substring scan (kernel-friendly: `List.rec` peels the haystack
lazily, so concrete documents evaluate without deep proof terms). -/
def listContainsB (pat : List Char) : List Char → Bool :=
  fun l => List.rec (motive := fun _ => Bool)
    pat.isEmpty
    (fun c cs ih => listStartsWith pat (c :: cs) || ih)
    l

theorem listContainsB_nil (pat : List Char) : listContainsB pat [] = pat.isEmpty := rfl

theorem listContainsB_cons (pat : List Char) (c : Char) (cs : List Char) :
    listContainsB pat (c :: cs) = (listStartsWith pat (c :: cs) || listContainsB pat cs) := rfl

theorem listStartsWith_iff : ∀ pat l : List Char, listStartsWith pat l = true ↔ pat <+: l := by
  intro pat
  induction pat with
  | nil => intro l; simp [listStartsWith]
  | cons p ps ih =>
    intro l
    cases l with
    | nil => simp [listStartsWith]
    | cons c cs =>
      simp [listStartsWith, List.cons_prefix_cons, ih cs, and_comm]

theorem listContainsB_iff (pat : List Char) :
    ∀ l : List Char, listContainsB pat l = true ↔ pat <:+: l := by
  induction pat with
  | nil =>
    intro l
    cases l with
    | nil => simp [listContainsB_nil]
    | cons c cs => simp [listContainsB_cons, listStartsWith]
  | cons p ps =>
    intro l
    induction l with
    | nil =>
      simp [listContainsB_nil]
    | cons c cs ihl =>
      rw [listContainsB_cons, List.infix_cons_iff]
      simp [listStartsWith_iff, ihl]

set_option maxRecDepth 8000 in
/-- C10: the rendered profiles document contains the
`spark.executor.instances` override exactly for a truthy executor-count
hint — any non-zero hint `n` puts the override entry naming `n` into the
document, a `0` hint renders the identical document as an absent hint, and
that document has no `spark.executor.instances` line at all. -/
theorem profiles_executor_override :
    (∀ n : Int, n ≠ 0 →
        containsStr (createProfilesYaml (profilesOpWith (some n))) (executorOverrideEntry n))
    ∧ createProfilesYaml (profilesOpWith (some 0)) = createProfilesYaml (profilesOpWith none)
    ∧ ¬ containsStr (createProfilesYaml (profilesOpWith none)) "spark.executor.instances" := by
  refine ⟨?_, by decide, ?_⟩
  · intro n hn
    have he : sparkConfigEntries (profilesOpWith (some n)) =
        [("spark.kubernetes.executor.podNamePrefix", "\"dbt-spark-\x7b\x7bdag_id\x7d\x7d\""),
         ("spark.app.name", "\"$\x7b\x7bdag_id\x7d\x7d-$\x7b\x7btask_id\x7d\x7d\""),
         ("spark.executor.instances", "\"" ++ pyStrInt n ++ "\"")] := by
      simp [sparkConfigEntries, profilesOpWith, optIntTruthy, hn]
    unfold createProfilesYaml
    apply containsStr_app_right
    apply containsStr_app_left
    unfold sparkConfigStr
    rw [he]
    show containsStr
      (("\"spark.kubernetes.executor.podNamePrefix\": \"dbt-spark-\x7b\x7bdag_id\x7d\x7d\"" ++
          "\n        ") ++
        (("\"spark.app.name\": \"$\x7b\x7bdag_id\x7d\x7d-$\x7b\x7btask_id\x7d\x7d\"" ++
            "\n        ") ++
          executorOverrideEntry n))
      (executorOverrideEntry n)
    apply containsStr_app_left
    apply containsStr_app_left
    exact containsStr_self _
  · intro h
    have hb := (listContainsB_iff "spark.executor.instances".data
        (createProfilesYaml (profilesOpWith none)).data).mpr h
    rw [show listContainsB "spark.executor.instances".data
        (createProfilesYaml (profilesOpWith none)).data = false from by decide] at hb
    cases hb

/-- C10 witness at the pipeline's `num_executors=2` staging run. -/
theorem profiles_executor_override_witness :
    containsStr (createProfilesYaml (profilesOpWith (some 2))) (executorOverrideEntry 2) :=
  profiles_executor_override.1 2 (by decide)
